import Mathlib

/-
Formal model of the request-time security boundary of the VibeBiz public API.

Source files embedded:
- services/public-api/src/main.py : the authorization gate
  (`get_current_user`, `validate_organization`) with its in-memory stores
  (`mock_users`, the token-to-user mapping).
- services/public-api/src/api/utils.py : the security utilities
  (`verify_password`, `create_slug`, `sanitize_filename`, `mask_sensitive_data`).

Modelling conventions: Python strings are Lean `String`s, manipulated through
their underlying `List Char`; Python dicts are association lists; JSON-like
values are the inductive `Value`; Python functions that can raise are
`Except`-valued; an optional HTTP header is an `Option String`.  All
definitions are structurally recursive so that concrete runs reduce inside
the kernel.
-/

namespace VibeBiz

/-! ## Character-list primitives shared by the embedded Python string operations -/

/-- Holds when `pat` is a leading segment of `s`.  Models Python
`s.startswith(pat)` (written here on `List Char`). -/
def leadsWith : List Char → List Char → Bool
  | [], _ => true
  | _ :: _, [] => false
  | p :: ps, c :: cs => p == c && leadsWith ps cs

/-- Models the Python substring test `pat in haystack`. -/
def containsSub : List Char → List Char → Bool
  | [], pat => leadsWith pat []
  | c :: rest, pat => leadsWith pat (c :: rest) || containsSub rest pat

/-- Worker for `pyRemoveAll`: scans left to right and deletes each
non-overlapping occurrence of the pattern `p :: ps`, resuming after the
deleted occurrence, exactly as Python `str.replace(pat, "")` does.  The
`Nat` argument is fuel; `pyRemoveAll` supplies the input length, which is
always sufficient because every step consumes at least one character.  The
fuel only makes the recursion structural (hence kernel-computable). -/
def removeGo (p : Char) (ps : List Char) : Nat → List Char → List Char
  | _, [] => []
  | 0, s => s
  | fuel + 1, c :: cs =>
    if leadsWith (p :: ps) (c :: cs) then removeGo p ps fuel (cs.drop ps.length)
    else c :: removeGo p ps fuel cs

/-- Models Python `s.replace(pat, "")`: removes every (non-overlapping,
left-to-right) occurrence of `pat` from `s` in a single pass. -/
def pyRemoveAll (s pat : List Char) : List Char :=
  match pat with
  | [] => s
  | p :: ps => removeGo p ps s.length s

/-- Models Python `str.lower()` on the ASCII range (the only range the
embedded inputs use). -/
def pyLower (s : List Char) : List Char := s.map Char.toLower

/-- Models Python `s.strip(t)` for a single strip character `t`: removes
every leading and every trailing occurrence of `t`. -/
def pyStrip (t : Char) (s : List Char) : List Char :=
  ((s.dropWhile (· == t)).reverse.dropWhile (· == t)).reverse

/-! ## Name canonicalizer (utils.create_slug, utils.sanitize_filename) -/

/-- Characters of the class `[a-z0-9]` used by `create_slug`'s regular
expression (applied after lower-casing). -/
def slugChar (c : Char) : Bool := c.isLower || c.isDigit

/-- Models `re.sub(r"[^a-z0-9]+", "-", s)`: each maximal run of characters
outside `[a-z0-9]` becomes a single hyphen.  The boolean records whether the
scanner is currently inside such a run (so the run contributes no further
hyphen). -/
def collapseRuns : Bool → List Char → List Char
  | _, [] => []
  | inRun, c :: rest =>
    if slugChar c then c :: collapseRuns false rest
    else if inRun then collapseRuns true rest
    else '-' :: collapseRuns true rest

/-- Embeds `utils.create_slug`: lower-case, replace every maximal run of
characters outside `[a-z0-9]` by `-`, then strip leading/trailing hyphens. -/
def create_slug (name : String) : String :=
  ⟨pyStrip '-' (collapseRuns false (pyLower name.data))⟩

/-- Spec-side helper for claim C9: a character that survives slugging
unchanged; every other character is replaced by a hyphen before runs of
hyphens are squashed. -/
def toHyphen (c : Char) : Char := if slugChar c then c else '-'

/-- Spec-side helper for claim C9: squashes every run of consecutive hyphens
to a single hyphen; the boolean records whether the previous emitted
character was a hyphen of the current run. -/
def squashHyphenRuns : Bool → List Char → List Char
  | _, [] => []
  | prevHyphen, c :: rest =>
    if c == '-' then
      if prevHyphen then squashHyphenRuns true rest
      else '-' :: squashHyphenRuns true rest
    else c :: squashHyphenRuns false rest

/-- Second definition for the refinement claim C9, following the spec's words
for `to_slug`: lower-case the text, turn every character outside `[a-z0-9]`
into a hyphen, squash hyphen runs, and trim hyphens at both ends. -/
def to_slug (text : String) : String :=
  ⟨pyStrip '-' (squashHyphenRuns false ((pyLower text.data).map toHyphen))⟩

/-- Characters kept by `sanitize_filename`'s regular expression class
`[a-zA-Z0-9._-]`, translated with Lean's ASCII classifiers. -/
def fileChar (c : Char) : Bool :=
  c.isAlpha || c.isDigit || c == '.' || c == '_' || c == '-'

/-- Embeds `utils.sanitize_filename`: strip every literal `..`, then every
`/`, then every `\` (each a single left-to-right pass), keep only characters
in `[a-zA-Z0-9._-]`, and fall back to `"file"` when nothing remains. -/
def sanitize_filename (filename : String) : String :=
  let noTraversal := pyRemoveAll filename.data "..".data
  let noSlash := pyRemoveAll noTraversal "/".data
  let noBackslash := pyRemoveAll noSlash "\\".data
  let sanitized := noBackslash.filter fileChar
  if sanitized.isEmpty then "file" else ⟨sanitized⟩

/-- Spec-side character class for claim C8, written as the explicit code-point
ranges `[A-Za-z0-9._-]` named by the spec. -/
def safeNameChar (c : Char) : Bool :=
  ('A'.toNat ≤ c.toNat && c.toNat ≤ 'Z'.toNat)
    || ('a'.toNat ≤ c.toNat && c.toNat ≤ 'z'.toNat)
    || ('0'.toNat ≤ c.toNat && c.toNat ≤ '9'.toNat)
    || c == '.' || c == '_' || c == '-'

/-- Second definition for the refinement claim C8, following the spec's words
for `to_safe_filename`: first strip every literal `..`, `/` and `\`
occurrence in a single pass, then drop every character outside
`[A-Za-z0-9._-]`, and return the literal `"file"` if the result is empty. -/
def to_safe_filename (text : String) : String :=
  let stripped :=
    pyRemoveAll (pyRemoveAll (pyRemoveAll text.data "..".data) "/".data) "\\".data
  let kept := stripped.filter safeNameChar
  if kept = [] then "file" else ⟨kept⟩

/-! ## Sensitive-data redactor (utils.mask_sensitive_data) -/

/-- JSON-like trees: the value space `mask_sensitive_data` traverses.
Scalars, sequences, and mappings with string keys (a Python dict is modelled
as its association list of items, in insertion order). -/
inductive Value where
  | str : String → Value
  | num : Int → Value
  | flag : Bool → Value
  | null : Value
  | seq : List Value → Value
  | dict : List (String × Value) → Value

/-- The `default_sensitive_keys` set of `mask_sensitive_data` (as a list; the
only use is the existence of a matching element, so set-vs-list is
immaterial). -/
def default_sensitive_keys : List String :=
  ["password", "token", "secret", "key", "auth", "credential", "jwt", "session", "cookie"]

/-- Models `any(k in key for k in keys_to_mask)` where `keys_to_mask` is the
union of the defaults with the caller-supplied `sensitive_keys`.  Python's
`in` is a case-sensitive substring test. -/
def keyMatches (sensitive_keys : List String) (key : String) : Bool :=
  (default_sensitive_keys ++ sensitive_keys).any (fun k => containsSub key.data k.data)

/-- The masking rule applied to the value under a matched key: a string of
length greater than 4 becomes its first two characters, the literal ten-star
run `"**********"`, and its last two characters (Python `value[:2]` and
`value[-2:]`); any other value becomes the literal `"***"`. -/
def maskValue : Value → Value
  | .str s =>
    if 4 < s.data.length then
      .str ⟨s.data.take 2 ++ "**********".data ++ s.data.drop (s.data.length - 2)⟩
    else .str "***"
  | _ => .str "***"

mutual
/-- The item loop of `mask_sensitive_data`: each key is tested against the
marker set; a matched key's value is masked wholesale, an unmatched dict
value is recursed into, and every other value is passed through unchanged. -/
def maskItems (sensitive_keys : List String) : List (String × Value) → List (String × Value)
  | [] => []
  | (key, value) :: rest =>
    (key,
      if keyMatches sensitive_keys key then maskValue value
      else maskNested sensitive_keys value) :: maskItems sensitive_keys rest

/-- The `elif isinstance(value, dict)` branch of `mask_sensitive_data`:
recurse into dict values, pass every other unmatched value through. -/
def maskNested (sensitive_keys : List String) : Value → Value
  | .dict d => .dict (maskItems sensitive_keys d)
  | v => v
end

/-- Embeds `utils.mask_sensitive_data` on a dict given as its item list. -/
def mask_sensitive_data (data : List (String × Value)) (sensitive_keys : List String) :
    List (String × Value) :=
  maskItems sensitive_keys data

/-- Spec-side masking rule for claim C5, following the spec's words: first 2
characters, then exactly 10 mask characters, then the last 2 characters for
strings longer than 4; the literal `"***"` for everything else. -/
def maskedPerSpec : Value → Value
  | .str s =>
    if 4 < s.data.length then
      .str ⟨s.data.take 2 ++ List.replicate 10 '*' ++ s.data.drop (s.data.length - 2)⟩
    else .str "***"
  | _ => .str "***"

/-! ## Credential hasher (utils.verify_password over passlib) -/

/-- Model of passlib's hash identification for a `CryptContext` configured
with the single scheme `"bcrypt"`: a stored hash is recognized exactly when
it carries one of bcrypt's `$2*$` tags.  (External dependency: passlib;
behaviour per its documented contract.) -/
def bcryptIdentify (hashed : String) : Bool :=
  leadsWith "$2a$".data hashed.data || leadsWith "$2b$".data hashed.data
    || leadsWith "$2x$".data hashed.data || leadsWith "$2y$".data hashed.data
    || leadsWith "$2$".data hashed.data

/-- Model of the external `passlib.context.CryptContext.verify`: per passlib's
documented contract it raises `UnknownHashError` (a `ValueError`) when the
stored hash cannot be identified as a configured scheme, and otherwise
returns the boolean outcome of the scheme's digest comparison.  The digest
comparison itself is irrelevant to the claims and is abstracted as the
parameter `check`. -/
def pwd_context_verify (check : String → String → Bool) (password hashed : String) :
    Except String Bool :=
  if bcryptIdentify hashed then .ok (check password hashed)
  else .error "UnknownHashError"

/-- Embeds `utils.verify_password`, which returns `pwd_context.verify(password,
hashed)` with no exception handling of its own; any passlib exception
propagates to the caller. -/
def verify_password (check : String → String → Bool) (password hashed : String) :
    Except String Bool :=
  pwd_context_verify check password hashed

/-! ## Authorization gate (main.get_current_user, main.validate_organization) -/

/-- A row of `main.mock_users`: the resolved principal. -/
structure User where
  id : String
  organization_id : String
  role : String
deriving Repr, DecidableEq

/-- The terminal failures of the authorization gate.  `missingHeader` is the
FastAPI validation error produced when the required `Authorization` header is
absent (HTTP 422, confirmed by `tests/test_main.py`); `malformedCredential` is
the 401 "Invalid authorization header"; `unauthenticated` the 401 "Invalid
token"; `keyError` the untyped Python `KeyError` escaping
`mock_users[user_id]`; `missingTenant` the 400 "X-Organization-ID header is
required"; `tenantMismatch` the 403 "User is not a member of the specified
organization". -/
inductive AuthFailure where
  | missingHeader
  | malformedCredential
  | unauthenticated
  | keyError (user_id : String)
  | missingTenant
  | tenantMismatch
deriving Repr, DecidableEq

instance {ε α : Type} [DecidableEq ε] [DecidableEq α] : DecidableEq (Except ε α) := fun a b =>
  match a, b with
  | .error x, .error y =>
    if h : x = y then .isTrue (by simp [h]) else .isFalse (by simp [h])
  | .error _, .ok _ => .isFalse (by simp)
  | .ok _, .error _ => .isFalse (by simp)
  | .ok x, .ok y =>
    if h : x = y then .isTrue (by simp [h]) else .isFalse (by simp [h])

/-- The `main.mock_users` store: known principals by user id. -/
def mock_users : String → Option User
  | "user-1" => some ⟨"user-1", "org-1", "admin"⟩
  | "user-2" => some ⟨"user-2", "org-2", "user"⟩
  | _ => none

/-- The token-to-user-id mapping hard-coded inside `get_current_user`. -/
def user_mapping : String → Option String
  | "user-1-token" => some "user-1"
  | "user-2-token" => some "user-2"
  | "user-3-token" => some "user-3"
  | _ => none

/-- Embeds `main.get_current_user`.  The argument is the `Authorization`
header when present; `none` models an absent header, which FastAPI's
`Header(...)` declaration rejects with a validation error before the function
body runs (modelled as `.error .missingHeader`).  For a present header the
body checks `startswith("Bearer ")`, extracts the token with
`authorization.replace("Bearer ", "")` (removing every occurrence), looks it
up in `user_mapping`, and finally indexes `mock_users[user_id]`, which raises
`KeyError` for an id absent from the store. -/
def get_current_user (authorization : Option String) : Except AuthFailure User :=
  match authorization with
  | none => .error .missingHeader
  | some auth =>
    if leadsWith "Bearer ".data auth.data then
      match user_mapping ⟨pyRemoveAll auth.data "Bearer ".data⟩ with
      | some user_id =>
        match mock_users user_id with
        | some u => .ok u
        | none => .error (.keyError user_id)
      | none => .error .unauthenticated
    else .error .malformedCredential

/-- Embeds `main.validate_organization`: given the already-resolved principal
and the `X-Organization-ID` header (absent headers arrive as `none`;
`if not x_organization_id` also treats the empty string as missing), fail
with 400 when the tenant assertion is missing, with 403 when the principal's
organization differs from it, and otherwise return the asserted tenant id. -/
def validate_organization (current_user : User) (x_organization_id : Option String) :
    Except AuthFailure String :=
  match x_organization_id with
  | none => .error .missingTenant
  | some org =>
    if org = "" then .error .missingTenant
    else if current_user.organization_id ≠ org then .error .tenantMismatch
    else .ok org

/-! ## Theorems: tenant authorization (C1) -/

/-- C1: for every resolved principal and every asserted tenant id,
`validate_organization` fails with `MissingTenant` when the asserted tenant
id is absent or empty, fails with `TenantMismatch` when the principal's
organization differs from the asserted tenant id, and on success returns the
asserted tenant id as the authorized tenant. -/
theorem C1_validate_organization (u : User) (s : String) :
    validate_organization u none = .error .missingTenant ∧
    validate_organization u (some "") = .error .missingTenant ∧
    (s ≠ "" → u.organization_id ≠ s →
      validate_organization u (some s) = .error .tenantMismatch) ∧
    (s ≠ "" → u.organization_id = s →
      validate_organization u (some s) = .ok s) := by
  refine ⟨rfl, rfl, ?_, ?_⟩ <;> intro h1 h2 <;> simp [validate_organization, h1, h2]

/-- Witness for C1, instantiating the spec's end-to-end example: the
principal of `org-1` is rejected for asserted tenant `org-2` and authorized
for asserted tenant `org-1`. -/
theorem C1_witness :
    validate_organization ⟨"user-1", "org-1", "admin"⟩ (some "org-2") =
      .error .tenantMismatch ∧
    validate_organization ⟨"user-1", "org-1", "admin"⟩ (some "org-1") = .ok "org-1" :=
  ⟨(C1_validate_organization ⟨"user-1", "org-1", "admin"⟩ "org-2").2.2.1
      (by decide) (by decide),
   (C1_validate_organization ⟨"user-1", "org-1", "admin"⟩ "org-1").2.2.2
      (by decide) (by decide)⟩

/-! ## Theorems: authorization gate credential extraction (C2, C10) -/

/-- C2 (counterexample): the claim fails on the code in two places.  An
absent `Authorization` header produces the framework's missing-header
validation failure (HTTP 422 per `tests/test_main.py`), not
`MalformedCredential`.  Moreover the header `"Bearer Bearer user-1-token"`
is a well-formed bearer header whose bearer value `"Bearer user-1-token"` is
not a known credential, yet the gate authenticates it as `user-1` (because
`replace("Bearer ", "")` deletes every occurrence), instead of failing with
`Unauthenticated`. -/
theorem C2_counterexample :
    get_current_user none ≠ .error .malformedCredential ∧
    leadsWith "Bearer ".data "Bearer Bearer user-1-token".data = true ∧
    user_mapping "Bearer user-1-token" = none ∧
    get_current_user (some "Bearer Bearer user-1-token") =
      .ok ⟨"user-1", "org-1", "admin"⟩ :=
  ⟨by decide, by decide, by decide, by decide⟩

/-- C2 (amended): the gate fails with the framework's missing-header
validation error when the `Authorization` header is absent, fails with
`MalformedCredential` when the header is present but does not start with
`"Bearer "`, and fails with `Unauthenticated` when it does start with
`"Bearer "` but the token obtained by deleting every `"Bearer "` occurrence
is not a known credential. -/
theorem C2_gate_failures (a : String) :
    get_current_user none = .error .missingHeader ∧
    (leadsWith "Bearer ".data a.data = false →
      get_current_user (some a) = .error .malformedCredential) ∧
    (leadsWith "Bearer ".data a.data = true →
      user_mapping ⟨pyRemoveAll a.data "Bearer ".data⟩ = none →
      get_current_user (some a) = .error .unauthenticated) := by
  refine ⟨rfl, ?_, ?_⟩
  · intro h
    simp [get_current_user, h]
  · intro h hm
    simp [get_current_user, h, hm]

/-- Witness for C2: a non-bearer header is rejected as malformed and an
unknown bearer token is rejected as unauthenticated. -/
theorem C2_witness :
    (leadsWith "Bearer ".data "Basic abc".data = false ∧
      get_current_user (some "Basic abc") = .error .malformedCredential) ∧
    (leadsWith "Bearer ".data "Bearer unknown-token".data = true ∧
      user_mapping ⟨pyRemoveAll "Bearer unknown-token".data "Bearer ".data⟩ = none ∧
      get_current_user (some "Bearer unknown-token") = .error .unauthenticated) :=
  ⟨⟨by decide, (C2_gate_failures "Basic abc").2.1 (by decide)⟩,
   ⟨by decide, by decide,
    (C2_gate_failures "Bearer unknown-token").2.2 (by decide) (by decide)⟩⟩

/-- C10: the header `"Bearer user-3-token"` is a syntactically valid bearer
header whose token is present in the credential mapping, but the mapped user
id `"user-3"` is absent from `mock_users`, so identity resolution escapes
with the untyped `KeyError` rather than a principal or a typed failure. -/
theorem C10_user3_keyerror :
    leadsWith "Bearer ".data "Bearer user-3-token".data = true ∧
    user_mapping "user-3-token" = some "user-3" ∧
    mock_users "user-3" = none ∧
    get_current_user (some "Bearer user-3-token") = .error (.keyError "user-3") :=
  ⟨by decide, by decide, by decide, by decide⟩

/-! ## Theorems: password verification (C3) -/

/-- C3 (counterexample): `verify_password` applied to a malformed stored hash
does not return `false`; it propagates passlib's `UnknownHashError` (the
wrapper has no exception handling), for any digest comparison `check`. -/
theorem C3_counterexample :
    verify_password (fun _ _ => false) "password123" "not-a-valid-hash" ≠ .ok false ∧
    verify_password (fun _ _ => false) "password123" "not-a-valid-hash" =
      .error "UnknownHashError" :=
  ⟨by decide, by decide⟩

/-- C3 (amended): for every plaintext and every stored hash that passlib
cannot identify as a bcrypt hash, `verify_password` raises (propagates)
`UnknownHashError` instead of returning a boolean; this holds for every
digest comparison `check`. -/
theorem C3_verify_raises_on_malformed (check : String → String → Bool)
    (password hashed : String) (h : bcryptIdentify hashed = false) :
    verify_password check password hashed = .error "UnknownHashError" := by
  simp [verify_password, pwd_context_verify, h]

/-- Witness for C3: the unidentifiable stored hash `"not-a-valid-hash"`
makes `verify_password` propagate `UnknownHashError`. -/
theorem C3_witness :
    bcryptIdentify "not-a-valid-hash" = false ∧
    verify_password (fun _ _ => false) "password123" "not-a-valid-hash" =
      .error "UnknownHashError" :=
  ⟨by decide,
   C3_verify_raises_on_malformed (fun _ _ => false) "password123" "not-a-valid-hash"
     (by decide)⟩

/-! ## Theorems: name canonicalizer (C8, C9) -/

theorem slugChar_hyphen_false (c : Char) (h : slugChar c = true) : (c == '-') = false := by
  simp only [slugChar, Char.isLower, Char.isDigit, Bool.or_eq_true, Bool.and_eq_true,
    decide_eq_true_eq] at h
  simp only [beq_eq_false_iff_ne, ne_eq]
  intro hc
  subst hc
  revert h
  decide

theorem collapseRuns_eq_squash (s : List Char) :
    ∀ b : Bool, collapseRuns b s = squashHyphenRuns b (s.map toHyphen) := by
  induction s with
  | nil => intro b; rfl
  | cons c rest ih =>
    intro b
    by_cases h : slugChar c = true
    · simp [collapseRuns, squashHyphenRuns, toHyphen, h, slugChar_hyphen_false c h, ih]
    · have h' : slugChar c = false := by revert h; cases slugChar c <;> simp
      cases b <;> simp [collapseRuns, squashHyphenRuns, toHyphen, h', ih]

theorem fileChar_eq_safeNameChar (c : Char) : fileChar c = safeNameChar c := by
  simp only [fileChar, safeNameChar, Char.isAlpha, Char.isUpper, Char.isLower, Char.isDigit,
    UInt32.le_def, BitVec.le_def, Char.toNat, ge_iff_le, decide_eq_true_eq]
  rfl

/-- C9: `create_slug` lower-cases its input, collapses every maximal run of
characters outside `[a-z0-9]` into a single hyphen, and trims leading and
trailing hyphens (the spec-worded `to_slug`); in particular
`"My Company Name"` becomes `"my-company-name"`, and the empty and
all-symbol inputs produce the empty string. -/
theorem C9_create_slug :
    (∀ name : String, create_slug name = to_slug name) ∧
    create_slug "My Company Name" = "my-company-name" ∧
    create_slug "" = "" ∧
    create_slug "---" = "" := by
  refine ⟨fun name => ?_, by decide, by decide, by decide⟩
  show String.mk _ = String.mk _
  rw [collapseRuns_eq_squash]

/-- C8: `sanitize_filename` agrees everywhere with the spec-worded
`to_safe_filename` (strip every literal `..`, `/`, `\` occurrence in a
single pass, then drop every character outside `[A-Za-z0-9._-]`, with
fallback `"file"` for an empty result); in particular
`"../../etc/passwd"` becomes `"etcpasswd"` and `""` becomes `"file"`.  The
last conjunct records the single-pass (not fixed-point) behaviour: stripping
`"./."` leaves a reassembled `".."`. -/
theorem C8_sanitize_filename :
    (∀ text : String, sanitize_filename text = to_safe_filename text) ∧
    sanitize_filename "../../etc/passwd" = "etcpasswd" ∧
    sanitize_filename "" = "file" ∧
    sanitize_filename "./." = ".." := by
  refine ⟨fun text => ?_, by decide, by decide, by decide⟩
  unfold sanitize_filename to_safe_filename
  rw [show fileChar = safeNameChar from funext fileChar_eq_safeNameChar]
  cases pyRemoveAll (pyRemoveAll (pyRemoveAll text.data "..".data) "/".data) "\\".data
      |>.filter safeNameChar <;> simp

/-! ## Theorems: sensitive-data redactor (C4, C5, C6, C7) -/

theorem leadsWith_iff (pat : List Char) :
    ∀ s, leadsWith pat s = true ↔ ∃ t, s = pat ++ t := by
  induction pat with
  | nil =>
    intro s
    simp [leadsWith]
  | cons p ps ih =>
    intro s
    cases s with
    | nil => simp [leadsWith]
    | cons c cs =>
      simp only [leadsWith, Bool.and_eq_true, beq_iff_eq, ih, List.cons_append,
        List.cons.injEq]
      constructor
      · rintro ⟨hpc, t, ht⟩
        exact ⟨t, hpc.symm, ht⟩
      · rintro ⟨t, hcp, ht⟩
        exact ⟨hcp.symm, t, ht⟩

theorem containsSub_iff (s pat : List Char) :
    containsSub s pat = true ↔ ∃ u t, s = u ++ (pat ++ t) := by
  induction s with
  | nil =>
    simp only [containsSub, leadsWith_iff]
    constructor
    · rintro ⟨t, ht⟩
      exact ⟨[], t, by simpa using ht⟩
    · rintro ⟨u, t, ht⟩
      obtain ⟨hu, hpt⟩ := List.append_eq_nil.mp ht.symm
      exact ⟨t, hpt.symm⟩
  | cons c rest ih =>
    simp only [containsSub, Bool.or_eq_true, leadsWith_iff, ih]
    constructor
    · rintro (⟨t, ht⟩ | ⟨u, t, ht⟩)
      · exact ⟨[], t, by simpa using ht⟩
      · exact ⟨c :: u, t, by simp [ht]⟩
    · rintro ⟨u, t, ht⟩
      cases u with
      | nil => exact Or.inl ⟨t, by simpa using ht⟩
      | cons u0 us =>
        rw [List.cons_append, List.cons.injEq] at ht
        exact Or.inr ⟨us, t, ht.2⟩

/-- C4 (counterexample): marker matching is case-sensitive, so the key
`"PASSWORD"` — which contains the default marker `"password"` up to letter
case — is not masked: the redactor returns its long secret value unchanged,
whereas the claim requires it masked (to `"Su**********3!"`, a different
value). -/
theorem C4_counterexample :
    mask_sensitive_data [("PASSWORD", Value.str "SuperSecretPassword123!")] [] =
      [("PASSWORD", Value.str "SuperSecretPassword123!")] ∧
    containsSub (pyLower "PASSWORD".data) "password".data = true ∧
    keyMatches [] "PASSWORD" = false ∧
    Value.str "SuperSecretPassword123!" ≠ Value.str "Su**********3!" := by
  refine ⟨rfl, by decide, by decide, fun h => ?_⟩
  injection h with h'
  exact absurd h' (by decide)

/-- C4 (amended): the redactor matches each mapping key against the marker
set case-sensitively as a substring: the value under a key is masked exactly
when the key contains some default or caller-supplied marker as a literal
(case-preserving) substring; otherwise the per-item rule falls through to
the nested/unchanged branch. -/
theorem C4_case_sensitive_matching (ks : List String) (key : String) (v : Value)
    (rest : List (String × Value)) :
    mask_sensitive_data ((key, v) :: rest) ks =
      (key, if keyMatches ks key then maskValue v else maskNested ks v)
        :: mask_sensitive_data rest ks ∧
    (keyMatches ks key = true ↔
      ∃ m, m ∈ default_sensitive_keys ++ ks ∧ ∃ u t, key.data = u ++ (m.data ++ t)) := by
  refine ⟨rfl, ?_⟩
  simp only [keyMatches, List.any_eq_true]
  constructor
  · rintro ⟨m, hm, hc⟩
    exact ⟨m, hm, (containsSub_iff key.data m.data).1 hc⟩
  · rintro ⟨m, hm, hsub⟩
    exact ⟨m, hm, (containsSub_iff key.data m.data).2 hsub⟩

/-- C5: the value under a marker-matched key is replaced according to the
spec's masking rule: a string longer than 4 characters keeps its first 2 and
last 2 characters around exactly 10 mask characters; everything else
(short strings and non-strings alike) becomes the literal `"***"`. -/
theorem C5_masking_rule (ks : List String) (key : String) (v : Value)
    (rest : List (String × Value)) (h : keyMatches ks key = true) :
    mask_sensitive_data ((key, v) :: rest) ks =
      (key, maskedPerSpec v) :: mask_sensitive_data rest ks := by
  have hstars : "**********".data = List.replicate 10 '*' := by decide
  have hm : maskValue v = maskedPerSpec v := by
    cases v <;> simp [maskValue, maskedPerSpec, hstars]
  simp [mask_sensitive_data, maskItems, h, hm]

/-- Witness for C5, instantiating the spec's example: the default-marked key
`"password"` with value `"SuperSecretPassword123!"` is masked to
`"Su**********3!"`. -/
theorem C5_witness :
    keyMatches [] "password" = true ∧
    mask_sensitive_data [("password", Value.str "SuperSecretPassword123!")] [] =
      [("password", Value.str "Su**********3!")] := by
  constructor
  · decide
  · rw [C5_masking_rule [] "password" (Value.str "SuperSecretPassword123!") [] (by decide)]
    rfl

theorem maskValue_maskValue (v : Value) : maskValue (maskValue v) = maskValue v := by
  cases v with
  | str s =>
    by_cases h : 4 < s.data.length
    · have hA : (s.data.take 2).length = 2 := by
        rw [List.length_take]
        omega
      have hSt : (("**********".data : List Char)).length = 10 := by decide
      have hAS : (s.data.take 2 ++ "**********".data).length = 12 := by
        rw [List.length_append, hA, hSt]
      have hB : (s.data.drop (s.data.length - 2)).length = 2 := by
        rw [List.length_drop]
        omega
      have hlen :
          (s.data.take 2 ++ "**********".data ++ s.data.drop (s.data.length - 2)).length
            = 14 := by
        rw [List.length_append, List.length_append, hA, hSt, hB]
      have hin : maskValue (Value.str s) =
          Value.str ⟨s.data.take 2 ++ "**********".data
            ++ s.data.drop (s.data.length - 2)⟩ := by
        show (if 4 < s.data.length then _ else _) = _
        rw [if_pos h]
      rw [hin]
      show (if 4 < (s.data.take 2 ++ "**********".data
              ++ s.data.drop (s.data.length - 2)).length
            then Value.str ⟨(s.data.take 2 ++ "**********".data
                ++ s.data.drop (s.data.length - 2)).take 2
              ++ "**********".data
              ++ (s.data.take 2 ++ "**********".data
                  ++ s.data.drop (s.data.length - 2)).drop
                ((s.data.take 2 ++ "**********".data
                  ++ s.data.drop (s.data.length - 2)).length - 2)⟩
            else Value.str "***")
          = Value.str ⟨s.data.take 2 ++ "**********".data
              ++ s.data.drop (s.data.length - 2)⟩
      rw [if_pos (by rw [hlen]; omega)]
      refine congrArg (fun l => Value.str ⟨l⟩) ?_
      have ht : (s.data.take 2 ++ "**********".data
          ++ s.data.drop (s.data.length - 2)).take 2 = s.data.take 2 := by
        rw [List.append_assoc]
        exact List.take_left' hA
      have hd : (s.data.take 2 ++ "**********".data
          ++ s.data.drop (s.data.length - 2)).drop
            ((s.data.take 2 ++ "**********".data
              ++ s.data.drop (s.data.length - 2)).length - 2)
          = s.data.drop (s.data.length - 2) := by
        rw [hlen]
        exact List.drop_left' (by rw [hAS])
      rw [ht, hd]
    · have hin : maskValue (Value.str s) = Value.str "***" := by
        show (if 4 < s.data.length then _ else _) = _
        rw [if_neg h]
      rw [hin]
      rfl
  | num n => rfl
  | flag b => rfl
  | null => rfl
  | seq xs => rfl
  | dict d => rfl

theorem maskNested_of_not_dict (ks : List String) (v : Value)
    (h : ∀ entries, v ≠ Value.dict entries) : maskNested ks v = v := by
  cases v with
  | dict d => exact absurd rfl (h d)
  | str s => rfl
  | num n => rfl
  | flag b => rfl
  | null => rfl
  | seq xs => rfl

theorem maskIdemAux (ks : List String) :
    ∀ n : Nat,
      (∀ d : List (String × Value), sizeOf d ≤ n →
        maskItems ks (maskItems ks d) = maskItems ks d) ∧
      (∀ v : Value, sizeOf v ≤ n →
        maskNested ks (maskNested ks v) = maskNested ks v) := by
  intro n
  induction n using Nat.strong_induction_on with
  | _ n ih =>
    constructor
    · intro d hd
      match d with
      | [] => rfl
      | (key, v) :: rest =>
        have hsz : 1 + (1 + sizeOf key + sizeOf v) + sizeOf rest ≤ n := by
          simpa using hd
        have hrest : sizeOf rest < n := by omega
        have hv : sizeOf v < n := by omega
        simp only [maskItems]
        by_cases hk : keyMatches ks key = true
        · rw [if_pos hk, if_pos hk, maskValue_maskValue,
            (ih (sizeOf rest) hrest).1 rest le_rfl]
        · rw [if_neg hk, if_neg hk, (ih (sizeOf v) hv).2 v le_rfl,
            (ih (sizeOf rest) hrest).1 rest le_rfl]
    · intro v hv
      match v with
      | .dict d =>
        have hsz : 1 + sizeOf d ≤ n := by simpa using hv
        have hd : sizeOf d < n := by omega
        simp only [maskNested]
        exact congrArg Value.dict ((ih (sizeOf d) hd).1 d le_rfl)
      | .str s => rfl
      | .num i => rfl
      | .flag b => rfl
      | .null => rfl
      | .seq xs => rfl

/-- C6: redaction is idempotent: applying `mask_sensitive_data` twice with
the same extra markers yields the same result as applying it once, for every
dict tree and every marker list. -/
theorem C6_mask_idempotent (d : List (String × Value)) (ks : List String) :
    mask_sensitive_data (mask_sensitive_data d ks) ks = mask_sensitive_data d ks :=
  (maskIdemAux ks (sizeOf d)).1 d le_rfl

/-- C7: the redactor returns a mapping with exactly the same keys (in
order), and every entry whose key matches no marker and whose value is not
itself a mapping — sequences included — is returned unchanged. -/
theorem C7_frame (ks : List String) (d : List (String × Value)) :
    (mask_sensitive_data d ks).map Prod.fst = d.map Prod.fst ∧
    (∀ key v, (key, v) ∈ d → keyMatches ks key = false →
      (∀ entries, v ≠ Value.dict entries) → (key, v) ∈ mask_sensitive_data d ks) := by
  induction d with
  | nil =>
    exact ⟨rfl, by intro key v h; cases h⟩
  | cons head rest ih =>
    obtain ⟨k0, v0⟩ := head
    constructor
    · simpa [mask_sensitive_data, maskItems] using ih.1
    · intro key v hmem hnm hnd
      rcases List.mem_cons.mp hmem with heq | htail
      · have hk0 : key = k0 := congrArg Prod.fst heq
        subst hk0
        have hv0 : v = v0 := congrArg Prod.snd heq
        subst hv0
        have hmn : maskNested ks v = v := maskNested_of_not_dict ks v hnd
        show (key, v) ∈ (key,
            if keyMatches ks key then maskValue v else maskNested ks v)
          :: maskItems ks rest
        rw [if_neg (by rw [hnm]; exact Bool.false_ne_true), hmn]
        exact List.mem_cons_self _ _
      · exact List.mem_cons_of_mem _ (ih.2 key v htail hnm hnd)

/-- Witness for C7: an unmatched key whose value is a sequence containing a
mapping with a sensitive key passes through completely unchanged, while a
sibling matched key is masked — and the key set is preserved. -/
theorem C7_witness :
    ("items", Value.seq [Value.dict [("password", Value.str "hunter2secret")]]) ∈
      mask_sensitive_data
        [("items", Value.seq [Value.dict [("password", Value.str "hunter2secret")]]),
         ("password", Value.str "topsecretvalue")] [] :=
  (C7_frame [] _).2 "items" _ (List.mem_cons_self _ _) (by decide)
    (fun _ h => Value.noConfusion h)

end VibeBiz
